import Mathlib

/-!
# Verification of the film-api-service request handlers

Shallow embedding of the four Express request handlers of the repository
(`src/index.js` and the file containing the PUT handler):

* `GET /films`        — `handleList`
* `POST /films`       — `handleCreate`
* `PUT /films/:id`    — `handleUpdate`
* `DELETE /films/:id` — `handleDelete`

The external collaborators are modelled explicitly:

* the `films` table of the relational store is a `List Film`;
* the object-store bucket `film-images` is a `List String` of keys;
* every remote call appends an event to a trace (`Ev`), so that statements
  about call ordering and about "no call is made" can be expressed;
* success or failure of each remote call is an input of the handler
  (one `Bool` per call site).  Per the supabase-js storage contract used by
  the code, `upload` and `remove` report failure through a returned error
  value rather than by throwing: the code checks the returned error of
  `upload` (`if (uploadError) throw uploadError`) but discards the result of
  `remove`, and this asymmetry is modelled faithfully.  The pg `pool.query`
  calls reject on failure, which lands in the handler's `catch` block.

An absent authorization header and an empty one are both falsy in the
JavaScript guard `if (!userId)`; both are modelled by the caller identifier
`""`.  Likewise a missing `name` field and an empty string `name` are both
modelled by `name = ""`, and a missing uploaded file by `none`.
-/

namespace FilmApi

/-- A row of the relational table `films(id, name, image_url, user_id, created_at)`. -/
structure Film where
  id : Nat
  name : String
  imageUrl : String
  userId : String
  createdAt : Nat
deriving DecidableEq, Repr

/-- The projection `{id, name, imageUrl, mine}` returned by the list query. -/
structure FilmView where
  id : Nat
  name : String
  imageUrl : String
  mine : Bool
deriving DecidableEq, Repr

/-- JSON response bodies produced by the handlers. -/
inductive Body where
  /-- the JSON array returned by `GET /films` -/
  | films (l : List FilmView)
  /-- an error object carrying one message string -/
  | error (msg : String)
  /-- a success object with status and message only -/
  | message (msg : String)
  /-- a success object with status, message and a data row -/
  | messageData (msg : String) (data : Film)
deriving DecidableEq, Repr

/-- An HTTP response: status code and JSON body. -/
structure Response where
  status : Nat
  body : Body
deriving DecidableEq, Repr

/-- Events recording each remote call a handler performs, in order. -/
inductive Ev where
  /-- a `pool.query` SELECT -/
  | dbSelect
  /-- a `pool.query` INSERT -/
  | dbInsert
  /-- a `pool.query` UPDATE -/
  | dbUpdate
  /-- a `pool.query` DELETE -/
  | dbDelete
  /-- `supabase.storage.from(..).upload(key, ..)` -/
  | stUpload (key : String)
  /-- `supabase.storage.from(..).remove([key])` -/
  | stRemove (key : String)
deriving DecidableEq, Repr

/-- The multipart file payload produced by multer (`req.file`). -/
structure FilePayload where
  originalname : String
  contentType : String
deriving DecidableEq, Repr

/-- Outcome of one handler run: the HTTP response, the final table and
bucket contents, and the trace of remote calls that were made. -/
structure Result where
  response : Response
  db : List Film
  store : List String
  trace : List Ev
deriving DecidableEq, Repr

/-- `getPublicUrl`: the stable public URL the store resolves for a key. -/
def publicUrl (key : String) : String :=
  "https://store/film-images/" ++ key

/-- The final path segment of a URL: models both `path.basename(imageUrl)`
(DELETE handler) and `oldImageUrl.split('/').pop()` (PUT handler). -/
def lastSegment (url : String) : String :=
  (url.splitOn "/").getLastD ""

/-- The storage key derived at upload time: `` `${Date.now()}-${file.originalname}` ``. -/
def storageKey (now : Nat) (originalname : String) : String :=
  toString now ++ "-" ++ originalname

/-- The ownership-scoped row filter `WHERE id = $1 AND user_id = $2`. -/
def matchesRow (id : Nat) (caller : String) (f : Film) : Bool :=
  f.id == id && f.userId == caller

/-- The comparison behind `ORDER BY created_at DESC`: `a` comes no later
than `b` in the output when `a` was created no earlier. -/
def laterFirst (a b : Film) : Prop := b.createdAt ≤ a.createdAt

instance : DecidableRel laterFirst := fun a b => Nat.decLe b.createdAt a.createdAt

instance : IsTotal Film laterFirst :=
  ⟨fun a b => Nat.le_total b.createdAt a.createdAt⟩

instance : IsTrans Film laterFirst :=
  ⟨fun _ _ _ hab hbc => Nat.le_trans hbc hab⟩

/-- The row set of `SELECT .. FROM films ORDER BY created_at DESC`. -/
def sortByCreatedDesc (db : List Film) : List Film :=
  List.insertionSort laterFirst db

/-- One output row of the list query: `id, name, image_url AS "imageUrl",
(user_id = $1) AS mine`. -/
def projectFilm (caller : String) (f : Film) : FilmView :=
  ⟨f.id, f.name, f.imageUrl, f.userId == caller⟩

/-- The generic internal-failure response sent from every `catch` block. -/
def err500 : Response := ⟨500, Body.error "Internal Server Error"⟩

/-- The response sent when the authorization header is missing. -/
def err401 : Response := ⟨401, Body.error "Authorization header is required."⟩

/-- `GET /films`: requires the authorization header, then runs the single
SELECT; `dbOk` tells whether that query succeeds. -/
def handleList (caller : String) (dbOk : Bool) (db : List Film)
    (store : List String) : Result :=
  if caller = "" then
    ⟨err401, db, store, []⟩
  else if dbOk then
    ⟨⟨200, Body.films ((sortByCreatedDesc db).map (projectFilm caller))⟩,
      db, store, [Ev.dbSelect]⟩
  else
    ⟨err500, db, store, [Ev.dbSelect]⟩

/-- `POST /films`: validates the three required inputs, uploads the image,
resolves its public URL, then inserts the row (`RETURNING *`).  `now` is the
timestamp used for the storage key and the row's `created_at`; `freshId` is
the store-generated row identifier.  `uploadOk` and `insertOk` tell whether
the storage upload and the INSERT succeed. -/
def handleCreate (caller name : String) (file : Option FilePayload)
    (now freshId : Nat) (uploadOk insertOk : Bool) (db : List Film)
    (store : List String) : Result :=
  match file with
  | none =>
    ⟨⟨400, Body.error "Missing required fields: authorization, name, or image."⟩,
      db, store, []⟩
  | some fp =>
    if caller = "" ∨ name = "" then
      ⟨⟨400, Body.error "Missing required fields: authorization, name, or image."⟩,
        db, store, []⟩
    else
      let key := storageKey now fp.originalname
      if uploadOk then
        let url := publicUrl key
        if insertOk then
          let row : Film := ⟨freshId, name, url, caller, now⟩
          ⟨⟨201, Body.messageData "Film added successfully." row⟩,
            db ++ [row], store ++ [key], [Ev.stUpload key, Ev.dbInsert]⟩
        else
          ⟨err500, db, store ++ [key], [Ev.stUpload key, Ev.dbInsert]⟩
      else
        ⟨err500, db, store, [Ev.stUpload key]⟩

/-- The row transformation of the UPDATE statement: always `SET name = $1`,
and additionally `image_url = $2` when a new public URL was produced. -/
def updRow (name : String) (url : Option String) (f : Film) : Film :=
  { f with name := name, imageUrl := url.getD f.imageUrl }

/-- The ownership-scoped `UPDATE .. RETURNING *`: first component is the new
table contents, second the returned (updated) rows. -/
def runUpdateQuery (caller : String) (id : Nat) (name : String)
    (url : Option String) (db : List Film) : List Film × List Film :=
  (db.map (fun f => if matchesRow id caller f then updRow name url f else f),
   (db.filter (matchesRow id caller)).map (updRow name url))

/-- `PUT /films/:id`: requires the header and a `name`; when a new image is
supplied it looks up the old row (ownership-scoped), removes the old object
when found (the result of `remove` is discarded by the code), uploads the new
image, and finally runs the ownership-scoped UPDATE; zero updated rows give
404.  `selOk`, `removeOk`, `uploadOk`, `updateOk` tell whether the old-row
SELECT, the storage `remove`, the storage `upload` and the UPDATE succeed. -/
def handleUpdate (caller : String) (id : Nat) (name : String)
    (file : Option FilePayload) (now : Nat)
    (selOk removeOk uploadOk updateOk : Bool) (db : List Film)
    (store : List String) : Result :=
  if caller = "" then
    ⟨err401, db, store, []⟩
  else if name = "" then
    ⟨⟨400, Body.error "New name is required."⟩, db, store, []⟩
  else
    match file with
    | none =>
      if updateOk then
        match (db.filter (matchesRow id caller)).map (updRow name none) with
        | [] =>
          ⟨⟨404, Body.error "Film not found or permission denied."⟩,
            db, store, [Ev.dbUpdate]⟩
        | r :: _ =>
          ⟨⟨200, Body.messageData "Film updated successfully." r⟩,
            (runUpdateQuery caller id name none db).1, store, [Ev.dbUpdate]⟩
      else
        ⟨err500, db, store, [Ev.dbUpdate]⟩
    | some fp =>
      if selOk then
        let old := db.filter (matchesRow id caller)
        let store1 :=
          match old with
          | [] => store
          | g :: _ => if removeOk then store.erase (lastSegment g.imageUrl) else store
        let tr1 : List Ev :=
          match old with
          | [] => [Ev.dbSelect]
          | g :: _ => [Ev.dbSelect, Ev.stRemove (lastSegment g.imageUrl)]
        let key := storageKey now fp.originalname
        if uploadOk then
          let url := publicUrl key
          if updateOk then
            match (db.filter (matchesRow id caller)).map (updRow name (some url)) with
            | [] =>
              ⟨⟨404, Body.error "Film not found or permission denied."⟩,
                db, store1 ++ [key], tr1 ++ [Ev.stUpload key, Ev.dbUpdate]⟩
            | r :: _ =>
              ⟨⟨200, Body.messageData "Film updated successfully." r⟩,
                (runUpdateQuery caller id name (some url) db).1,
                store1 ++ [key], tr1 ++ [Ev.stUpload key, Ev.dbUpdate]⟩
          else
            ⟨err500, db, store1 ++ [key], tr1 ++ [Ev.stUpload key, Ev.dbUpdate]⟩
        else
          ⟨err500, db, store1, tr1 ++ [Ev.stUpload key]⟩
      else
        ⟨err500, db, store, [Ev.dbSelect]⟩

/-- `DELETE /films/:id`: requires the header, selects the row under the
ownership filter (absent row gives 404), deletes the row, then removes the
stored object named by the final path segment of the row's URL; the result
of that `remove` is discarded by the code.  `selOk`, `deleteOk`, `removeOk`
tell whether the SELECT, the DELETE and the storage `remove` succeed.
(The code's second 404 branch for `rowCount === 0` is unreachable in this
sequential model: the DELETE affects every row the SELECT just found.) -/
def handleDelete (caller : String) (id : Nat) (selOk deleteOk removeOk : Bool)
    (db : List Film) (store : List String) : Result :=
  if caller = "" then
    ⟨err401, db, store, []⟩
  else if selOk then
    match db.filter (matchesRow id caller) with
    | [] =>
      ⟨⟨404, Body.error "Film not found or you do not have permission to delete it."⟩,
        db, store, [Ev.dbSelect]⟩
    | g :: _ =>
      let key := lastSegment g.imageUrl
      if deleteOk then
        let db1 := db.filter (fun f => !(matchesRow id caller f))
        let store1 := if removeOk then store.erase key else store
        ⟨⟨200, Body.message "Film deleted successfully."⟩,
          db1, store1, [Ev.dbSelect, Ev.dbDelete, Ev.stRemove key]⟩
      else
        ⟨err500, db, store, [Ev.dbSelect, Ev.dbDelete]⟩
  else
    ⟨err500, db, store, [Ev.dbSelect]⟩

/-- C2: a list, update, or delete request whose authorization header is
absent or empty (both modelled by the caller identifier `""`) gets the 401
response, and the handler makes no object-store and no database call at all:
the table, the bucket, and the call trace are untouched. -/
theorem missing_auth_rejected (id : Nat) (name : String)
    (file : Option FilePayload) (now : Nat) (a b c d : Bool)
    (db : List Film) (store : List String) :
    handleList "" a db store = ⟨err401, db, store, []⟩ ∧
    handleUpdate "" id name file now a b c d db store = ⟨err401, db, store, []⟩ ∧
    handleDelete "" id a b c db store = ⟨err401, db, store, []⟩ := by
  refine ⟨?_, ?_, ?_⟩ <;> simp [handleList, handleUpdate, handleDelete]

/-- C3: a create request missing the caller identifier, the name field, or
the image file gets the 400 response, and no object-store upload and no
database insert happens: the table, the bucket, and the call trace are
untouched. -/
theorem create_missing_input (caller name : String) (file : Option FilePayload)
    (now freshId : Nat) (uploadOk insertOk : Bool) (db : List Film)
    (store : List String)
    (h : caller = "" ∨ name = "" ∨ file = none) :
    handleCreate caller name file now freshId uploadOk insertOk db store =
      ⟨⟨400, Body.error "Missing required fields: authorization, name, or image."⟩,
        db, store, []⟩ := by
  match file with
  | none => simp [handleCreate]
  | some fp =>
    rcases h with h | h | h
    · simp [handleCreate, h]
    · simp [handleCreate, h]
    · simp at h

/-- Witness for C3 at a concrete input: missing caller identifier. -/
theorem create_missing_input_witness :
    handleCreate "" "Matrix" (some ⟨"a.png", "image/png"⟩) 5 1 true true [] [] =
      ⟨⟨400, Body.error "Missing required fields: authorization, name, or image."⟩,
        [], [], []⟩ :=
  create_missing_input "" "Matrix" (some ⟨"a.png", "image/png"⟩) 5 1 true true [] []
    (Or.inl rfl)

/-- C1: a list request with a non-empty caller identifier answers 200 with
all rows (whatever their owner), ordered by creation time descending, each
projected to `{id, name, imageUrl, mine}` where `mine` holds exactly when
the row's owner equals the caller; nothing is mutated. -/
theorem list_films_spec (caller : String) (db : List Film) (store : List String)
    (hc : caller ≠ "") :
    (handleList caller true db store).response.status = 200 ∧
    (handleList caller true db store).response.body =
      Body.films ((sortByCreatedDesc db).map (projectFilm caller)) ∧
    (sortByCreatedDesc db).Perm db ∧
    List.Sorted laterFirst (sortByCreatedDesc db) ∧
    (∀ f ∈ db, ((projectFilm caller f).mine = true ↔ f.userId = caller)) ∧
    (handleList caller true db store).db = db ∧
    (handleList caller true db store).store = store := by
  refine ⟨?_, ?_, ?_, ?_, ?_, ?_, ?_⟩
  · simp [handleList, hc]
  · simp [handleList, hc]
  · exact List.perm_insertionSort laterFirst db
  · exact List.sorted_insertionSort laterFirst db
  · intro f _
    simp [projectFilm]
  · simp [handleList, hc]
  · simp [handleList, hc]

/-- Three concrete rows used by witnesses, created at times 10 < 20 < 30. -/
def wFilm1 : Film := ⟨1, "Matrix", publicUrl "7-a.png", "u1", 10⟩

/-- Second concrete witness row, owned by another caller. -/
def wFilm2 : Film := ⟨2, "Dune", publicUrl "8-b.png", "u2", 20⟩

/-- Third concrete witness row. -/
def wFilm3 : Film := ⟨3, "Heat", publicUrl "9-c.png", "u1", 30⟩

/-- Concrete three-row table used by witnesses. -/
def wDb : List Film := [wFilm1, wFilm2, wFilm3]

/-- Witness for C1 at the concrete three-row table and caller `"u1"`. -/
theorem list_films_spec_witness :
    (handleList "u1" true wDb []).response.status = 200 ∧
    (handleList "u1" true wDb []).response.body =
      Body.films ((sortByCreatedDesc wDb).map (projectFilm "u1")) ∧
    (sortByCreatedDesc wDb).Perm wDb ∧
    List.Sorted laterFirst (sortByCreatedDesc wDb) ∧
    (∀ f ∈ wDb, ((projectFilm "u1" f).mine = true ↔ f.userId = "u1")) ∧
    (handleList "u1" true wDb []).db = wDb ∧
    (handleList "u1" true wDb []).store = [] :=
  list_films_spec "u1" wDb [] (by decide)

/-- C4: in a validated create, the upload always precedes the insert (an
insert only ever appears in the trace right after the upload); a failed
upload ends the request with 500 and no database row is inserted; and on
success the inserted row carries the supplied name, the resolved public URL
of the uploaded object, and the caller as owner, answered with 201 and that
row as data. -/
theorem create_upload_then_insert (caller name : String) (fp : FilePayload)
    (now freshId : Nat) (uploadOk insertOk : Bool) (db : List Film)
    (store : List String) (hc : caller ≠ "") (hn : name ≠ "") :
    (uploadOk = false →
      handleCreate caller name (some fp) now freshId uploadOk insertOk db store =
        ⟨err500, db, store, [Ev.stUpload (storageKey now fp.originalname)]⟩) ∧
    (uploadOk = true → insertOk = true →
      handleCreate caller name (some fp) now freshId uploadOk insertOk db store =
        ⟨⟨201, Body.messageData "Film added successfully."
            ⟨freshId, name, publicUrl (storageKey now fp.originalname), caller, now⟩⟩,
          db ++ [⟨freshId, name, publicUrl (storageKey now fp.originalname), caller, now⟩],
          store ++ [storageKey now fp.originalname],
          [Ev.stUpload (storageKey now fp.originalname), Ev.dbInsert]⟩) ∧
    (Ev.dbInsert ∈
        (handleCreate caller name (some fp) now freshId uploadOk insertOk db store).trace →
      (handleCreate caller name (some fp) now freshId uploadOk insertOk db store).trace =
        [Ev.stUpload (storageKey now fp.originalname), Ev.dbInsert]) := by
  refine ⟨?_, ?_, ?_⟩
  · rintro rfl
    simp [handleCreate, hc, hn]
  · rintro rfl rfl
    simp [handleCreate, hc, hn]
  · cases uploadOk <;> cases insertOk <;> simp [handleCreate, hc, hn]

/-- Witness for C4 at a concrete successful create. -/
theorem create_upload_then_insert_witness :
    (false = false →
      handleCreate "u1" "Matrix" (some ⟨"a.png", "image/png"⟩) 5 1 false true [] [] =
        ⟨err500, [], [], [Ev.stUpload (storageKey 5 "a.png")]⟩) ∧
    (false = true → true = true →
      handleCreate "u1" "Matrix" (some ⟨"a.png", "image/png"⟩) 5 1 false true [] [] =
        ⟨⟨201, Body.messageData "Film added successfully."
            ⟨1, "Matrix", publicUrl (storageKey 5 "a.png"), "u1", 5⟩⟩,
          [] ++ [⟨1, "Matrix", publicUrl (storageKey 5 "a.png"), "u1", 5⟩],
          [] ++ [storageKey 5 "a.png"],
          [Ev.stUpload (storageKey 5 "a.png"), Ev.dbInsert]⟩) ∧
    (Ev.dbInsert ∈
        (handleCreate "u1" "Matrix" (some ⟨"a.png", "image/png"⟩) 5 1 false true [] []).trace →
      (handleCreate "u1" "Matrix" (some ⟨"a.png", "image/png"⟩) 5 1 false true [] []).trace =
        [Ev.stUpload (storageKey 5 "a.png"), Ev.dbInsert]) :=
  create_upload_then_insert "u1" "Matrix" ⟨"a.png", "image/png"⟩ 5 1 false true [] []
    (by decide) (by decide)

/-- C5: an update never changes any row's `id`, `userId`, or `createdAt`
(the final table is an image of the initial one under a per-row map that
preserves those fields), and when no new image payload is supplied the map
also preserves `imageUrl`, so only `name` can change. -/
theorem update_frame (caller : String) (id : Nat) (name : String)
    (file : Option FilePayload) (now : Nat)
    (selOk removeOk uploadOk updateOk : Bool) (db : List Film)
    (store : List String) :
    ∃ g : Film → Film,
      (handleUpdate caller id name file now selOk removeOk uploadOk updateOk db store).db
        = db.map g ∧
      ∀ f : Film, (g f).id = f.id ∧ (g f).userId = f.userId ∧
        (g f).createdAt = f.createdAt ∧
        (file = none → (g f).imageUrl = f.imageUrl) := by
  have hid : ∃ g : Film → Film, db = db.map g ∧
      ∀ f : Film, (g f).id = f.id ∧ (g f).userId = f.userId ∧
        (g f).createdAt = f.createdAt ∧
        (file = none → (g f).imageUrl = f.imageUrl) :=
    ⟨fun f => f, by simp, fun f => by simp⟩
  have hupd : ∀ url : Option String, (file = none → url = none) →
      ∃ g : Film → Film, (runUpdateQuery caller id name url db).1 = db.map g ∧
      ∀ f : Film, (g f).id = f.id ∧ (g f).userId = f.userId ∧
        (g f).createdAt = f.createdAt ∧
        (file = none → (g f).imageUrl = f.imageUrl) := by
    intro url hurl
    refine ⟨fun f => if matchesRow id caller f then updRow name url f else f, rfl, ?_⟩
    intro f
    by_cases hm : matchesRow id caller f
    · refine ⟨by simp [hm, updRow], by simp [hm, updRow], by simp [hm, updRow], ?_⟩
      intro hf
      simp [hm, updRow, hurl hf]
    · simp [hm]
  by_cases h1 : caller = ""
  · simpa [handleUpdate, h1] using hid
  by_cases h2 : name = ""
  · simpa [handleUpdate, h1, h2] using hid
  match file with
  | none =>
    cases updateOk with
    | false => simpa [handleUpdate, h1, h2] using hid
    | true =>
      rcases hm : (db.filter (matchesRow id caller)).map (updRow name none) with _ | ⟨r, rs⟩
      · simpa [handleUpdate, h1, h2, hm] using hid
      · simpa [handleUpdate, h1, h2, hm] using hupd none (fun _ => rfl)
  | some fp =>
    cases selOk with
    | false => simpa [handleUpdate, h1, h2] using hid
    | true =>
      cases uploadOk with
      | false => simpa [handleUpdate, h1, h2] using hid
      | true =>
        cases updateOk with
        | false => simpa [handleUpdate, h1, h2] using hid
        | true =>
          rcases hm : (db.filter (matchesRow id caller)).map
              (updRow name (some (publicUrl (storageKey now fp.originalname)))) with _ | ⟨r, rs⟩
          · simpa [handleUpdate, h1, h2, hm] using hid
          · simpa [handleUpdate, h1, h2, hm] using
              hupd (some (publicUrl (storageKey now fp.originalname))) (by simp)

/-- Counterexample to C6 as stated: in an update that supplies a new image,
the storage `remove` of the old object fails (its returned error is
discarded by the code), yet the request answers 200 and the database row IS
mutated — not the claimed internal failure with an unchanged row. -/
theorem update_remove_failure_cex :
    (handleUpdate "u1" 1 "Neo" (some ⟨"n.png", "image/png"⟩) 99
        true false true true [wFilm1] ["7-a.png"]).response.status = 200 ∧
    (handleUpdate "u1" 1 "Neo" (some ⟨"n.png", "image/png"⟩) 99
        true false true true [wFilm1] ["7-a.png"]).db ≠ [wFilm1] := by
  refine ⟨by decide, by decide⟩

/-- C6 amended: in a validated update that supplies a new image, whenever
an old-object deletion occurs it comes right after the lookup and before
the new-object upload; the database row update, when it occurs, is the very
last step of the trace; and a failed new-object upload ends the request
with 500 and never mutates the row.  (A failed old-object `remove` is
ignored by the code — its error is discarded — so it neither fails the
request nor prevents the row update.) -/
theorem update_storage_ordering (caller : String) (id : Nat) (name : String)
    (fp : FilePayload) (now : Nat) (selOk removeOk uploadOk updateOk : Bool)
    (db : List Film) (store : List String) (hc : caller ≠ "") (hn : name ≠ "") :
    ((∃ k, Ev.stRemove k ∈
        (handleUpdate caller id name (some fp) now selOk removeOk uploadOk updateOk
          db store).trace) →
      ∃ k rest,
        (handleUpdate caller id name (some fp) now selOk removeOk uploadOk updateOk
          db store).trace =
          Ev.dbSelect :: Ev.stRemove k ::
            Ev.stUpload (storageKey now fp.originalname) :: rest) ∧
    (Ev.dbUpdate ∈
        (handleUpdate caller id name (some fp) now selOk removeOk uploadOk updateOk
          db store).trace →
      (handleUpdate caller id name (some fp) now selOk removeOk uploadOk updateOk
          db store).trace.getLast? = some Ev.dbUpdate) ∧
    (uploadOk = false →
      (handleUpdate caller id name (some fp) now selOk removeOk uploadOk updateOk
          db store).response = err500 ∧
      (handleUpdate caller id name (some fp) now selOk removeOk uploadOk updateOk
          db store).db = db) := by
  rcases hold : db.filter (matchesRow id caller) with _ | ⟨g0, gs⟩
  · cases selOk <;> cases uploadOk <;> cases updateOk <;>
      simp [handleUpdate, hc, hn, hold]
  · cases selOk <;> cases uploadOk <;> cases updateOk <;>
      simp [handleUpdate, hc, hn, hold]

/-- Witness for C6 (amended) at a concrete update replacing the image. -/
theorem update_storage_ordering_witness :
    ((∃ k, Ev.stRemove k ∈
        (handleUpdate "u1" 1 "Neo" (some ⟨"n.png", "image/png"⟩) 99
          true true true true wDb ["7-a.png"]).trace) →
      ∃ k rest,
        (handleUpdate "u1" 1 "Neo" (some ⟨"n.png", "image/png"⟩) 99
          true true true true wDb ["7-a.png"]).trace =
          Ev.dbSelect :: Ev.stRemove k ::
            Ev.stUpload (storageKey 99 "n.png") :: rest) ∧
    (Ev.dbUpdate ∈
        (handleUpdate "u1" 1 "Neo" (some ⟨"n.png", "image/png"⟩) 99
          true true true true wDb ["7-a.png"]).trace →
      (handleUpdate "u1" 1 "Neo" (some ⟨"n.png", "image/png"⟩) 99
          true true true true wDb ["7-a.png"]).trace.getLast? = some Ev.dbUpdate) ∧
    (true = false →
      (handleUpdate "u1" 1 "Neo" (some ⟨"n.png", "image/png"⟩) 99
          true true true true wDb ["7-a.png"]).response = err500 ∧
      (handleUpdate "u1" 1 "Neo" (some ⟨"n.png", "image/png"⟩) 99
          true true true true wDb ["7-a.png"]).db = wDb) :=
  update_storage_ordering "u1" 1 "Neo" ⟨"n.png", "image/png"⟩ 99
    true true true true wDb ["7-a.png"] (by decide) (by decide)

/-- The ownership-scoped filter finds nothing when no row matches both the
target id and the caller. -/
theorem filter_matches_eq_nil (db : List Film) (id : Nat) (caller : String)
    (hmiss : ∀ f ∈ db, ¬(f.id = id ∧ f.userId = caller)) :
    db.filter (matchesRow id caller) = [] := by
  induction db with
  | nil => rfl
  | cons a tl ih =>
    have ha : matchesRow id caller a = false := by
      have := hmiss a (List.mem_cons_self a tl)
      simp [matchesRow]
      intro h1 h2
      exact this ⟨h1, h2⟩
    simp [List.filter_cons, ha]
    intro f hf
    have hm := hmiss f (List.mem_cons_of_mem a hf)
    simp [matchesRow]
    intro h1 h2
    exact hm ⟨h1, h2⟩

/-- C7: an update or delete whose target row does not exist or belongs to a
different caller answers 404 with a response that is a constant (the same
for both cases, so the caller cannot tell them apart), and the table is
left entirely unchanged. -/
theorem notfound_or_forbidden (caller : String) (id : Nat) (name : String)
    (file : Option FilePayload) (now : Nat) (db : List Film)
    (store : List String) (hc : caller ≠ "") (hn : name ≠ "")
    (hmiss : ∀ f ∈ db, ¬(f.id = id ∧ f.userId = caller)) :
    (handleUpdate caller id name file now true true true true db store).response =
      ⟨404, Body.error "Film not found or permission denied."⟩ ∧
    (handleUpdate caller id name file now true true true true db store).db = db ∧
    (handleDelete caller id true true true db store).response =
      ⟨404, Body.error "Film not found or you do not have permission to delete it."⟩ ∧
    (handleDelete caller id true true true db store).db = db ∧
    (handleDelete caller id true true true db store).store = store := by
  have hnil := filter_matches_eq_nil db id caller hmiss
  refine ⟨?_, ?_, ?_, ?_, ?_⟩ <;>
    cases file <;> simp [handleUpdate, handleDelete, hc, hn, hnil]

/-- Witness for C7: caller `"u2"` targeting the row with id 1 owned by
`"u1"` in the concrete three-row table. -/
theorem notfound_or_forbidden_witness :
    (handleUpdate "u2" 1 "Neo" none 99 true true true true wDb []).response =
      ⟨404, Body.error "Film not found or permission denied."⟩ ∧
    (handleUpdate "u2" 1 "Neo" none 99 true true true true wDb []).db = wDb ∧
    (handleDelete "u2" 1 true true true wDb []).response =
      ⟨404, Body.error "Film not found or you do not have permission to delete it."⟩ ∧
    (handleDelete "u2" 1 true true true wDb []).db = wDb ∧
    (handleDelete "u2" 1 true true true wDb []).store = [] :=
  notfound_or_forbidden "u2" 1 "Neo" none 99 wDb [] (by decide) (by decide)
    (by decide)

/-- Counterexample to C8 as stated: when the object-store `remove` call at
the end of a delete fails, the handler still answers 200 — the code
discards the result of `remove` instead of checking it, so the error never
reaches the `catch` block and no 500 is produced. -/
theorem delete_remove_failure_cex :
    (handleDelete "u1" 1 true true false [wFilm1] ["7-a.png"]).response =
      ⟨200, Body.message "Film deleted successfully."⟩ ∧
    (handleDelete "u1" 1 true true false [wFilm1] ["7-a.png"]).response ≠ err500 := by
  refine ⟨by decide, by decide⟩

/-- C8 amended: after validation, every database error and every failure of
the (error-checked) storage upload ends the request with status 500 and
body `error "Internal Server Error"` — for list, create (upload or insert
failing), update (old-row select, new-image upload, or row update failing)
and delete (select or row delete failing).  Failures of the storage
`remove` calls are ignored because the code discards their result: in
particular a delete whose final `remove` fails still answers 200. -/
theorem internal_failure_responses (caller name : String) (id : Nat)
    (fp : FilePayload) (file : Option FilePayload) (now freshId : Nat)
    (removeOk : Bool) (db : List Film) (store : List String)
    (hc : caller ≠ "") (hn : name ≠ "") :
    (handleList caller false db store).response = err500 ∧
    (handleCreate caller name (some fp) now freshId false true db store).response
      = err500 ∧
    (handleCreate caller name (some fp) now freshId true false db store).response
      = err500 ∧
    (handleUpdate caller id name (some fp) now false removeOk true true db store).response
      = err500 ∧
    (handleUpdate caller id name (some fp) now true removeOk false true db store).response
      = err500 ∧
    (handleUpdate caller id name file now true removeOk true false db store).response
      = err500 ∧
    (handleDelete caller id false true true db store).response = err500 ∧
    (db.filter (matchesRow id caller) ≠ [] →
      (handleDelete caller id true false true db store).response = err500) ∧
    (db.filter (matchesRow id caller) ≠ [] →
      (handleDelete caller id true true false db store).response =
        ⟨200, Body.message "Film deleted successfully."⟩) := by
  rcases hold : db.filter (matchesRow id caller) with _ | ⟨g0, gs⟩ <;>
    refine ⟨?_, ?_, ?_, ?_, ?_, ?_, ?_, ?_, ?_⟩ <;>
      cases file <;>
        simp [handleList, handleCreate, handleUpdate, handleDelete, hc, hn, hold]

/-- Witness for C8 (amended) at concrete inputs: caller `"u1"`, the
one-row table, with each failing call in turn. -/
theorem internal_failure_responses_witness :
    (handleList "u1" false [wFilm1] ["7-a.png"]).response = err500 ∧
    (handleCreate "u1" "Neo" (some ⟨"n.png", "image/png"⟩) 99 4 false true
      [wFilm1] ["7-a.png"]).response = err500 ∧
    (handleCreate "u1" "Neo" (some ⟨"n.png", "image/png"⟩) 99 4 true false
      [wFilm1] ["7-a.png"]).response = err500 ∧
    (handleUpdate "u1" 1 "Neo" (some ⟨"n.png", "image/png"⟩) 99 false true true true
      [wFilm1] ["7-a.png"]).response = err500 ∧
    (handleUpdate "u1" 1 "Neo" (some ⟨"n.png", "image/png"⟩) 99 true true false true
      [wFilm1] ["7-a.png"]).response = err500 ∧
    (handleUpdate "u1" 1 "Neo" none 99 true true true false
      [wFilm1] ["7-a.png"]).response = err500 ∧
    (handleDelete "u1" 1 false true true [wFilm1] ["7-a.png"]).response = err500 ∧
    ([wFilm1].filter (matchesRow 1 "u1") ≠ [] →
      (handleDelete "u1" 1 true false true [wFilm1] ["7-a.png"]).response = err500) ∧
    ([wFilm1].filter (matchesRow 1 "u1") ≠ [] →
      (handleDelete "u1" 1 true true false [wFilm1] ["7-a.png"]).response =
        ⟨200, Body.message "Film deleted successfully."⟩) :=
  internal_failure_responses "u1" "Neo" 1 ⟨"n.png", "image/png"⟩ none 99 4 true
    [wFilm1] ["7-a.png"] (by decide) (by decide)

/-- In a table whose row identifiers are pairwise distinct, two members
with the same identifier are the same row. -/
theorem unique_id_mem (db : List Film)
    (huniq : db.Pairwise (fun a b => a.id ≠ b.id)) (f g : Film)
    (hf : f ∈ db) (hg : g ∈ db) (h : f.id = g.id) : f = g := by
  induction db with
  | nil => cases hf
  | cons a tl ih =>
    rcases List.pairwise_cons.mp huniq with ⟨ha, htl⟩
    rcases List.mem_cons.mp hf with rfl | hf1
    · rcases List.mem_cons.mp hg with rfl | hg1
      · rfl
      · exact absurd h (ha g hg1)
    · rcases List.mem_cons.mp hg with rfl | hg1
      · exact absurd h.symm (ha f hf1)
      · exact ih htl hf1 hg1

/-- In a table with pairwise-distinct identifiers, the ownership-scoped
filter for the row `f` owned by the caller returns exactly `[f]`. -/
theorem filter_matches_of_unique (db : List Film) (f : Film) (id : Nat)
    (caller : String) (hf : f ∈ db) (hid : f.id = id) (hu : f.userId = caller)
    (huniq : db.Pairwise (fun a b => a.id ≠ b.id)) :
    db.filter (matchesRow id caller) = [f] := by
  induction db with
  | nil => cases hf
  | cons a tl ih =>
    rcases List.pairwise_cons.mp huniq with ⟨ha, htl⟩
    rcases List.mem_cons.mp hf with rfl | hf1
    · have hmt : tl.filter (matchesRow id caller) = [] := by
        apply filter_matches_eq_nil
        intro g hg hcon
        exact ha g hg (by rw [hid, hcon.1])
      simp [List.filter_cons, matchesRow, hid, hu, hmt]
    · have hna : matchesRow id caller a = false := by
        have : a.id ≠ f.id := fun hcon => (ha f hf1) hcon
        simp [matchesRow]
        intro h1
        rw [← hid] at h1
        exact absurd h1 this
      simp [List.filter_cons, hna]
      exact ih hf1 htl

/-- C9: a successful delete of the caller's row `f` performs, in order, the
ownership-scoped SELECT, the row DELETE, and the removal of the stored
object keyed by the final path segment of the row's URL; afterwards no row
with the deleted id remains, a new list by the same caller shows no entry
with that id, and deleting the same id again answers 404. -/
theorem delete_spec (caller : String) (id : Nat) (f : Film) (db : List Film)
    (store : List String) (hc : caller ≠ "") (hf : f ∈ db) (hid : f.id = id)
    (hu : f.userId = caller)
    (huniq : db.Pairwise (fun a b => a.id ≠ b.id)) :
    handleDelete caller id true true true db store =
      ⟨⟨200, Body.message "Film deleted successfully."⟩,
        db.filter (fun g => !(matchesRow id caller g)),
        store.erase (lastSegment f.imageUrl),
        [Ev.dbSelect, Ev.dbDelete, Ev.stRemove (lastSegment f.imageUrl)]⟩ ∧
    (∀ g ∈ db.filter (fun g => !(matchesRow id caller g)), g.id ≠ id) ∧
    (handleList caller true (db.filter (fun g => !(matchesRow id caller g)))
        (store.erase (lastSegment f.imageUrl))).response.body =
      Body.films
        ((sortByCreatedDesc (db.filter (fun g => !(matchesRow id caller g)))).map
          (projectFilm caller)) ∧
    (∀ v ∈ (sortByCreatedDesc (db.filter (fun g => !(matchesRow id caller g)))).map
        (projectFilm caller), v.id ≠ id) ∧
    (handleDelete caller id true true true
        (db.filter (fun g => !(matchesRow id caller g)))
        (store.erase (lastSegment f.imageUrl))).response =
      ⟨404, Body.error "Film not found or you do not have permission to delete it."⟩ := by
  have hone := filter_matches_of_unique db f id caller hf hid hu huniq
  have hdb1 : ∀ g ∈ db.filter (fun g => !(matchesRow id caller g)), g.id ≠ id := by
    intro g hg hgid
    have hmem := (List.mem_filter.mp hg).1
    have hnot := (List.mem_filter.mp hg).2
    have hgf : g = f := unique_id_mem db huniq g f hmem hf (by rw [hgid, hid])
    rw [hgf] at hnot
    simp [matchesRow, hid, hu] at hnot
  have hnil : (db.filter (fun g => !(matchesRow id caller g))).filter
      (matchesRow id caller) = [] := by
    apply filter_matches_eq_nil
    intro g hg hcon
    exact hdb1 g hg hcon.1
  refine ⟨?_, hdb1, ?_, ?_, ?_⟩
  · simp [handleDelete, hc, hone]
  · simp [handleList, hc]
  · intro v hv
    rcases List.mem_map.mp hv with ⟨g, hg, rfl⟩
    have hmem : g ∈ db.filter (fun g => !(matchesRow id caller g)) := by
      simpa [sortByCreatedDesc] using
        (List.mem_insertionSort laterFirst).mp hg
    simpa [projectFilm] using hdb1 g hmem
  · simp [handleDelete, hc, hnil]

/-- Witness for C9: caller `"u1"` deleting the row with id 1 of the
concrete three-row table. -/
theorem delete_spec_witness :
    handleDelete "u1" 1 true true true wDb ["7-a.png", "8-b.png", "9-c.png"] =
      ⟨⟨200, Body.message "Film deleted successfully."⟩,
        wDb.filter (fun g => !(matchesRow 1 "u1" g)),
        (["7-a.png", "8-b.png", "9-c.png"] : List String).erase
          (lastSegment wFilm1.imageUrl),
        [Ev.dbSelect, Ev.dbDelete, Ev.stRemove (lastSegment wFilm1.imageUrl)]⟩ ∧
    (∀ g ∈ wDb.filter (fun g => !(matchesRow 1 "u1" g)), g.id ≠ 1) ∧
    (handleList "u1" true (wDb.filter (fun g => !(matchesRow 1 "u1" g)))
        ((["7-a.png", "8-b.png", "9-c.png"] : List String).erase
          (lastSegment wFilm1.imageUrl))).response.body =
      Body.films
        ((sortByCreatedDesc (wDb.filter (fun g => !(matchesRow 1 "u1" g)))).map
          (projectFilm "u1")) ∧
    (∀ v ∈ (sortByCreatedDesc (wDb.filter (fun g => !(matchesRow 1 "u1" g)))).map
        (projectFilm "u1"), v.id ≠ 1) ∧
    (handleDelete "u1" 1 true true true
        (wDb.filter (fun g => !(matchesRow 1 "u1" g)))
        ((["7-a.png", "8-b.png", "9-c.png"] : List String).erase
          (lastSegment wFilm1.imageUrl))).response =
      ⟨404, Body.error "Film not found or you do not have permission to delete it."⟩ :=
  delete_spec "u1" 1 wFilm1 wDb ["7-a.png", "8-b.png", "9-c.png"]
    (by decide) (by decide) (by decide) (by decide) (by decide)

/-- C10: an update supplying a new image whose target row is absent or
owned by a different caller performs no storage `remove` at all (the
ownership-scoped lookup finds nothing, so no other user's object is
touched) yet still uploads the new object before answering 404; the table
is unchanged, the bucket has gained exactly the new key, and no row of the
final table references the uploaded object's URL — an orphan. -/
theorem update_orphan_upload (caller : String) (id : Nat) (name : String)
    (fp : FilePayload) (now : Nat) (db : List Film) (store : List String)
    (hc : caller ≠ "") (hn : name ≠ "")
    (hmiss : ∀ f ∈ db, ¬(f.id = id ∧ f.userId = caller))
    (hfresh : ∀ f ∈ db, f.imageUrl ≠ publicUrl (storageKey now fp.originalname)) :
    (handleUpdate caller id name (some fp) now true true true true db store).response =
      ⟨404, Body.error "Film not found or permission denied."⟩ ∧
    (handleUpdate caller id name (some fp) now true true true true db store).trace =
      [Ev.dbSelect, Ev.stUpload (storageKey now fp.originalname), Ev.dbUpdate] ∧
    (handleUpdate caller id name (some fp) now true true true true db store).store =
      store ++ [storageKey now fp.originalname] ∧
    (handleUpdate caller id name (some fp) now true true true true db store).db = db ∧
    (∀ f ∈ (handleUpdate caller id name (some fp) now true true true true db store).db,
      f.imageUrl ≠ publicUrl (storageKey now fp.originalname)) := by
  have hnil := filter_matches_eq_nil db id caller hmiss
  refine ⟨?_, ?_, ?_, ?_, ?_⟩ <;>
    simp [handleUpdate, hc, hn, hnil]
  intro f hf
  exact hfresh f hf

/-- Witness for C10: caller `"u2"` sending a new image for the row with
id 1 owned by `"u1"`. -/
theorem update_orphan_upload_witness :
    (handleUpdate "u2" 1 "Neo" (some ⟨"n.png", "image/png"⟩) 99 true true true true
        [wFilm1] ["7-a.png"]).response =
      ⟨404, Body.error "Film not found or permission denied."⟩ ∧
    (handleUpdate "u2" 1 "Neo" (some ⟨"n.png", "image/png"⟩) 99 true true true true
        [wFilm1] ["7-a.png"]).trace =
      [Ev.dbSelect, Ev.stUpload (storageKey 99 "n.png"), Ev.dbUpdate] ∧
    (handleUpdate "u2" 1 "Neo" (some ⟨"n.png", "image/png"⟩) 99 true true true true
        [wFilm1] ["7-a.png"]).store = ["7-a.png"] ++ [storageKey 99 "n.png"] ∧
    (handleUpdate "u2" 1 "Neo" (some ⟨"n.png", "image/png"⟩) 99 true true true true
        [wFilm1] ["7-a.png"]).db = [wFilm1] ∧
    (∀ f ∈ (handleUpdate "u2" 1 "Neo" (some ⟨"n.png", "image/png"⟩) 99 true true true true
        [wFilm1] ["7-a.png"]).db,
      f.imageUrl ≠ publicUrl (storageKey 99 "n.png")) :=
  update_orphan_upload "u2" 1 "Neo" ⟨"n.png", "image/png"⟩ 99 [wFilm1] ["7-a.png"]
    (by decide) (by decide) (by decide) (by decide)

end FilmApi
